import Mathlib

/-!
Shallow embedding of the subscription-creation pipeline and the feed
normalization step of the el_monitorro repository (src/bot/logic.rs,
src/models/telegram_subscription.rs, src/sync/rss_reader.rs), together with
the proofs that settle the specification claims about them.
-/

namespace ElMonitorro

/-- Embeds diesel::result::Error: an opaque storage-layer error cause. Only
its identity matters to the subscription logic, so it is modelled as a
wrapped numeric code. -/
structure DieselError where
  code : Nat
deriving DecidableEq, Repr

/-- Embeds the SubscriptionError enum of src/bot/logic.rs. -/
inductive SubscriptionError where
  | DbError (cause : DieselError)
  | InvalidRssUrl
  | UrlIsNotRss
  | RssUrlNotProvided
  | SubscriptionAlreadyExists
  | SubscriptionCountLimit
  | TelegramError
deriving DecidableEq, Repr

/-- Embeds the impl of From for SubscriptionError in src/bot/logic.rs
(conversion of a diesel error): every storage error cause is wrapped as
DbError. Named fromDiesel because from is a Lean keyword. -/
def SubscriptionError.fromDiesel (error : DieselError) : SubscriptionError :=
  SubscriptionError.DbError error

/-- Embeds NewTelegramChat (declared in src/db/telegram.rs, used by
src/bot/logic.rs): the chat descriptor handed to create_subscription. -/
structure NewTelegramChat where
  id : Int
  kind : String
  username : Option String
  first_name : Option String
  last_name : Option String
deriving DecidableEq, Repr

/-- Modelled from the spec: the persisted Chat record. Section 3 of the spec
says a Chat carries the external chat identifier (the stable integer key),
the kind and the optional username / first / last display names; the record
is created from a NewTelegramChat descriptor on first sight of its id. -/
structure TelegramChat where
  id : Int
  kind : String
  username : Option String
  first_name : Option String
  last_name : Option String
deriving DecidableEq, Repr

/-- Modelled from the spec: the persisted Feed record. Section 3 of the spec
says a Feed is a URL (the unique key) plus an internal identifier. -/
structure Feed where
  id : Int
  link : String
deriving DecidableEq, Repr

/-- Embeds NewTelegramSubscription (declared in src/db/telegram.rs, used by
src/bot/logic.rs): the (chat_id, feed_id) pair to be inserted. -/
structure NewTelegramSubscription where
  chat_id : Int
  feed_id : Int
deriving DecidableEq, Repr

/-- Embeds TelegramSubscription of src/models/telegram_subscription.rs.
Timestamps (chrono DateTime of Utc) are modelled as integers denoting
instants. -/
structure TelegramSubscription where
  chat_id : Int
  feed_id : Int
  created_at : Int
  updated_at : Int
deriving DecidableEq, Repr

/-- Modelled from the spec: the state held by the storage collaborator
(section 6): the Chat rows, the Feed rows with the counter handing out fresh
internal feed identifiers, and the Subscription rows. -/
structure Db where
  chats : List TelegramChat
  feeds : List Feed
  nextFeedId : Int
  subscriptions : List TelegramSubscription
deriving DecidableEq, Repr

/-- Modelled from the spec: telegram::create_chat of src/db/telegram.rs (not
under src/), the createOrGetChat contract of section 6: upsert keyed by the
external chat id: return the existing Chat when the id was seen, otherwise
persist and return a Chat built from the descriptor. -/
def telegram_create_chat (db : Db) (c : NewTelegramChat) : TelegramChat × Db :=
  match db.chats.find? (fun ch => ch.id == c.id) with
  | some ch => (ch, db)
  | none =>
    let ch : TelegramChat :=
      { id := c.id, kind := c.kind, username := c.username,
        first_name := c.first_name, last_name := c.last_name }
    (ch, { db with chats := db.chats ++ [ch] })

/-- Modelled from the spec: feeds::create of src/db/feeds.rs (not under
src/), the createOrGetFeed contract of section 6: upsert keyed by the URL:
return the existing Feed when the URL was seen, otherwise persist and return
a Feed with a fresh internal identifier. -/
def feeds_create (db : Db) (url : String) : Feed × Db :=
  match db.feeds.find? (fun f => f.link == url) with
  | some f => (f, db)
  | none =>
    let f : Feed := { id := db.nextFeedId, link := url }
    (f, { db with feeds := db.feeds ++ [f], nextFeedId := db.nextFeedId + 1 })

/-- Modelled from the spec: telegram::find_subscription of
src/db/telegram.rs (not under src/), the findSubscription contract of
section 6: the stored Subscription for a (chat_id, feed_id) pair, when one
exists. -/
def telegram_find_subscription (db : Db) (s : NewTelegramSubscription) :
    Option TelegramSubscription :=
  db.subscriptions.find? (fun r => r.chat_id == s.chat_id && r.feed_id == s.feed_id)

/-- Modelled from the spec: telegram::count_subscriptions_for_chat of
src/db/telegram.rs (not under src/), the countSubscriptions contract of
section 6: how many Subscription rows a chat owns. -/
def telegram_count_subscriptions_for_chat (db : Db) (chat_id : Int) : Nat :=
  (db.subscriptions.filter (fun r => r.chat_id == chat_id)).length

/-- Modelled from the spec: telegram::create_subscription of
src/db/telegram.rs (not under src/), the createSubscription repository
contract of sections 4.3 and 6: insert a new Subscription row whose
created/updated timestamps are the current instant, and return it. -/
def telegram_create_subscription (db : Db) (s : NewTelegramSubscription)
    (now : Int) : TelegramSubscription × Db :=
  let row : TelegramSubscription :=
    { chat_id := s.chat_id, feed_id := s.feed_id,
      created_at := now, updated_at := now }
  (row, { db with subscriptions := db.subscriptions ++ [row] })

/-- Environment for validate_rss_url: the outcomes of the two external
calls it makes. parses tells whether Url::parse of the url crate succeeds
on the string; fetchOk tells whether Channel::from_url of the rss crate
fetches and parses the target as a feed document. -/
structure FeedEnv where
  parses : String → Bool
  fetchOk : String → Bool

/-- Embeds validate_rss_url of src/bot/logic.rs: first match on Url::parse,
then on Channel::from_url; a parse failure is InvalidRssUrl, a fetch/parse
failure is UrlIsNotRss. -/
def validate_rss_url (env : FeedEnv) (rss_url : String) :
    Except SubscriptionError Unit :=
  match env.parses rss_url with
  | true =>
    match env.fetchOk rss_url with
    | true => Except.ok ()
    | false => Except.error SubscriptionError.UrlIsNotRss
  | false => Except.error SubscriptionError.InvalidRssUrl

/-- Embeds check_if_subscription_exists of src/bot/logic.rs. -/
def check_if_subscription_exists (connection : Db)
    (subscription : NewTelegramSubscription) : Except SubscriptionError Unit :=
  match telegram_find_subscription connection subscription with
  | none => Except.ok ()
  | some _ => Except.error SubscriptionError.SubscriptionAlreadyExists

/-- Embeds check_number_of_subscriptions of src/bot/logic.rs: counts of 0, 1
or 2 pass, anything else is SubscriptionCountLimit. -/
def check_number_of_subscriptions (connection : Db) (chat_id : Int) :
    Except SubscriptionError Unit :=
  match telegram_count_subscriptions_for_chat connection chat_id with
  | 0 => Except.ok ()
  | 1 => Except.ok ()
  | 2 => Except.ok ()
  | _ => Except.error SubscriptionError.SubscriptionCountLimit

/-- Fault schedule for the storage collaborator during one
create_subscription call: which storage operations fail, and with which
diesel error. beginFault and commitFault are failures of the transaction
wrapper itself (diesel begins the transaction before the closure and
commits it after an Ok closure; those diesel errors reach the caller
through the From conversion). chatFault, feedFault and insertFault are
failures of telegram::create_chat, feeds::create and
telegram::create_subscription, the three calls src/bot/logic.rs unwraps. -/
structure StorageFaults where
  beginFault : Option DieselError
  chatFault : Option DieselError
  feedFault : Option DieselError
  insertFault : Option DieselError
  commitFault : Option DieselError
deriving DecidableEq, Repr

/-- The fault schedule on which every storage operation succeeds. -/
def noFaults : StorageFaults :=
  { beginFault := none, chatFault := none, feedFault := none,
    insertFault := none, commitFault := none }

/-- Outcome of one create_subscription call. panicked models a Rust panic
(an unwrap of an Err value inside the transaction closure): the call aborts
without returning a SubscriptionError. -/
inductive Outcome where
  | panicked
  | ok (s : TelegramSubscription)
  | err (e : SubscriptionError)
deriving DecidableEq, Repr

/-- Storage operations a create_subscription call performs (recorded in
order in a trace so that claims about step order and about the absence of
storage access can be stated). -/
inductive Event where
  | upsertChat
  | upsertFeed
  | findSub
  | countSubs
  | insertSub
deriving DecidableEq, Repr

/-- Embeds create_subscription of src/bot/logic.rs. The result carries the
outcome, the durable storage state after the call (diesel's transaction
rolls back on an Err closure and commits nothing when the closure panics,
so every non-ok outcome leaves the state as it was), and the trace of
storage operations performed. The source unwraps the results of
telegram::create_chat, feeds::create and telegram::create_subscription, so
a storage failure at those three steps panics; an Err from the two check
helpers is propagated by the question-mark operator; diesel errors of the
transaction wrapper itself reach the caller through
SubscriptionError.fromDiesel. -/
def create_subscription (env : FeedEnv) (faults : StorageFaults) (now : Int)
    (db_connection : Db) (new_chat : NewTelegramChat)
    (rss_url : Option String) : Outcome × Db × List Event :=
  match rss_url with
  | none => (Outcome.err SubscriptionError.RssUrlNotProvided, db_connection, [])
  | some url =>
    match validate_rss_url env url with
    | Except.error e => (Outcome.err e, db_connection, [])
    | Except.ok _ =>
      match faults.beginFault with
      | some e =>
        (Outcome.err (SubscriptionError.fromDiesel e), db_connection, [])
      | none =>
        match faults.chatFault with
        | some _ => (Outcome.panicked, db_connection, [Event.upsertChat])
        | none =>
          let cr := telegram_create_chat db_connection new_chat
          let chat := cr.1
          let db1 := cr.2
          match faults.feedFault with
          | some _ =>
            (Outcome.panicked, db_connection, [Event.upsertChat, Event.upsertFeed])
          | none =>
            let fr := feeds_create db1 url
            let feed := fr.1
            let db2 := fr.2
            let new_telegram_subscription : NewTelegramSubscription :=
              { chat_id := chat.id, feed_id := feed.id }
            match check_if_subscription_exists db2 new_telegram_subscription with
            | Except.error e =>
              (Outcome.err e, db_connection,
                [Event.upsertChat, Event.upsertFeed, Event.findSub])
            | Except.ok _ =>
              match check_number_of_subscriptions db2 chat.id with
              | Except.error e =>
                (Outcome.err e, db_connection,
                  [Event.upsertChat, Event.upsertFeed, Event.findSub,
                   Event.countSubs])
              | Except.ok _ =>
                match faults.insertFault with
                | some _ =>
                  (Outcome.panicked, db_connection,
                    [Event.upsertChat, Event.upsertFeed, Event.findSub,
                     Event.countSubs, Event.insertSub])
                | none =>
                  let sr := telegram_create_subscription db2
                    new_telegram_subscription now
                  match faults.commitFault with
                  | some e =>
                    (Outcome.err (SubscriptionError.fromDiesel e), db_connection,
                      [Event.upsertChat, Event.upsertFeed, Event.findSub,
                       Event.countSubs, Event.insertSub])
                  | none =>
                    (Outcome.ok sr.1, sr.2,
                      [Event.upsertChat, Event.upsertFeed, Event.findSub,
                       Event.countSubs, Event.insertSub])

/-- Modelled from the spec: Url::parse of the url crate (an external
dependency, not part of this repository). Only the scheme requirement is
modelled, which is all the claims need: an absolute URL must begin with a
scheme, an ASCII alphabetic character followed by further scheme characters
up to a colon; a string without such a scheme prefix fails to parse. In
particular the empty string and the digit string "11" used by the
repository's own test fail, while "https:/google.com" succeeds. -/
def url_scheme_char (c : Char) : Bool :=
  c.isAlphanum || c == '+' || c == '-' || c == '.'

/-- Scans the characters after the initial alphabetic one for the colon that
ends the scheme, accepting only scheme characters before it. -/
def url_scheme_rest : List Char → Bool
  | [] => false
  | c :: cs => if c == ':' then true else url_scheme_char c && url_scheme_rest cs

/-- Whether Url::parse succeeds on the string, per the scheme model above. -/
def url_parse_ok (s : String) : Bool :=
  match s.toList with
  | [] => false
  | c :: cs => c.isAlpha && url_scheme_rest cs

/-- Embeds the Guid type of the rss crate as used in
src/sync/rss_reader.rs: only its value accessor is consumed. -/
structure Guid where
  value : String
deriving DecidableEq, Repr

/-- Embeds an rss crate Item as consumed by src/sync/rss_reader.rs: the
accessors title, description, link, author, guid and pub_date, each
returning an optional value. -/
structure Item where
  title : Option String
  description : Option String
  link : Option String
  author : Option String
  guid : Option Guid
  pub_date : Option String
deriving DecidableEq, Repr

/-- Embeds an rss crate Channel as consumed by src/sync/rss_reader.rs: the
feed-level title, link and description, and the item list in document
order. -/
structure Channel where
  title : String
  link : String
  description : String
  items : List Item
deriving DecidableEq, Repr

/-- Embeds FetchedFeedItem of src/sync/rss_reader.rs. The publication date,
a chrono DateTime of Utc, is modelled as an integer instant. -/
structure FetchedFeedItem where
  title : Option String
  description : Option String
  link : Option String
  author : Option String
  guid : Option String
  publication_date : Int
deriving DecidableEq, Repr

/-- Embeds FetchedFeed of src/sync/rss_reader.rs. -/
structure FetchedFeed where
  title : String
  link : String
  description : String
  items : List FetchedFeedItem
deriving DecidableEq, Repr

/-- Embeds the per-item closure in the From impl for FetchedFeed of
src/sync/rss_reader.rs. parse models chrono's parse_from_rfc2822 composed
with the instant-preserving conversion to Utc: it yields the instant a
well-formed RFC2822 string denotes and nothing for a malformed one. The
closure unwraps both the optional pub_date and the parse result, so a
missing or malformed date panics; none models that abort. -/
def item_normalize (parse : String → Option Int) (item : Item) :
    Option FetchedFeedItem :=
  match item.pub_date with
  | none => none
  | some s =>
    match parse s with
    | none => none
    | some pub_date =>
      some { title := item.title, description := item.description,
             link := item.link, author := item.author,
             guid := item.guid.map Guid.value,
             publication_date := pub_date }

/-- Embeds the map-and-collect over channel.items() in the From impl for
FetchedFeed of src/sync/rss_reader.rs: items are processed in document
order, and the panic of the first bad item aborts the whole run (none). -/
def normalize_items (parse : String → Option Int) :
    List Item → Option (List FetchedFeedItem)
  | [] => some []
  | it :: rest =>
    match item_normalize parse it with
    | none => none
    | some fi =>
      match normalize_items parse rest with
      | none => none
      | some fis => some (fi :: fis)

/-- Embeds the From impl turning a Channel into a FetchedFeed in
src/sync/rss_reader.rs: normalize every item, then copy the feed-level
title, link and description; none models the abort caused by an item with
a missing or malformed publication date. -/
def fetchedFeed_from (parse : String → Option Int) (channel : Channel) :
    Option FetchedFeed :=
  match normalize_items parse channel.items with
  | none => none
  | some items =>
    some { title := channel.title, link := channel.link,
           description := channel.description, items := items }

/-- An empty storage state, used by concrete instantiations. -/
def emptyDb : Db :=
  { chats := [], feeds := [], nextFeedId := 1, subscriptions := [] }

/-- A feed environment on which every string parses as a URL and fetches as
a feed document, used by concrete instantiations. -/
def envAllOk : FeedEnv :=
  { parses := fun _ => true, fetchOk := fun _ => true }

/-- The chat descriptor the repository's own tests use. -/
def testChat : NewTelegramChat :=
  { id := 42, kind := "private", username := some "Username",
    first_name := some "First", last_name := some "Last" }

/-- A feed environment on which no string parses as a URL, used by concrete
instantiations. -/
def envNoParse : FeedEnv :=
  { parses := fun _ => false, fetchOk := fun _ => true }

/-- A feed environment on which every string parses as a URL but none
fetches as a feed document, used by concrete instantiations. -/
def envNoFetch : FeedEnv :=
  { parses := fun _ => true, fetchOk := fun _ => false }

/-- A storage state in which chat 42 already owns three subscriptions, used
by concrete instantiations. -/
def threeSubsDb : Db :=
  { chats := [{ id := 42, kind := "private", username := none,
                first_name := none, last_name := none }],
    feeds := [{ id := 1, link := "https://a:" }, { id := 2, link := "https://b:" },
              { id := 3, link := "https://c:" }],
    nextFeedId := 4,
    subscriptions :=
      [{ chat_id := 42, feed_id := 1, created_at := 0, updated_at := 0 },
       { chat_id := 42, feed_id := 2, created_at := 0, updated_at := 0 },
       { chat_id := 42, feed_id := 3, created_at := 0, updated_at := 0 }] }

/-- The arguments of one create_subscription call, used to state what a
sequence of calls does to the storage state. -/
structure Request where
  env : FeedEnv
  faults : StorageFaults
  now : Int
  chat : NewTelegramChat
  rss_url : Option String

/-- The storage state left behind by a sequence of create_subscription
calls, each running against the state the previous one left. -/
def run_requests (db : Db) : List Request → Db
  | [] => db
  | r :: rs =>
    run_requests (create_subscription r.env r.faults r.now db r.chat r.rss_url).2.1 rs

/-- A raw channel with one fully populated item, used by concrete
instantiations. -/
def sampleChannel : Channel :=
  { title := "Feed title", link := "https://example.com", description := "Feed desc",
    items :=
      [{ title := some "Item", description := none, link := some "https://example.com/1",
         author := none, guid := some { value := "g1" },
         pub_date := some "Wed, 01 Jan 2020 00:00:00 GMT" }] }

/-- A date parser for concrete instantiations: it accepts exactly the date
string sampleChannel carries. -/
def sampleParse (s : String) : Option Int :=
  if s == "Wed, 01 Jan 2020 00:00:00 GMT" then some 1577836800 else none

example :
    (create_subscription envAllOk noFaults 5 emptyDb testChat
      (some "https://example.com/feed")).1 =
    Outcome.ok { chat_id := 42, feed_id := 1, created_at := 5, updated_at := 5 } := by
  decide

example :
    (create_subscription envAllOk noFaults 5 emptyDb testChat none).1 =
    Outcome.err SubscriptionError.RssUrlNotProvided := by
  decide

example : url_parse_ok "" = false := by decide

example : url_parse_ok "11" = false := by decide

example : url_parse_ok "https:/google.com" = true := by decide

/-! Helper lemmas about the storage operations. -/

theorem telegram_create_chat_subscriptions (db : Db) (c : NewTelegramChat) :
    (telegram_create_chat db c).2.subscriptions = db.subscriptions := by
  unfold telegram_create_chat
  cases db.chats.find? (fun ch => ch.id == c.id) <;> rfl

theorem telegram_create_chat_feeds (db : Db) (c : NewTelegramChat) :
    (telegram_create_chat db c).2.feeds = db.feeds := by
  unfold telegram_create_chat
  cases db.chats.find? (fun ch => ch.id == c.id) <;> rfl

theorem telegram_create_chat_nextFeedId (db : Db) (c : NewTelegramChat) :
    (telegram_create_chat db c).2.nextFeedId = db.nextFeedId := by
  unfold telegram_create_chat
  cases db.chats.find? (fun ch => ch.id == c.id) <;> rfl

theorem feeds_create_subscriptions (db : Db) (u : String) :
    (feeds_create db u).2.subscriptions = db.subscriptions := by
  unfold feeds_create
  cases db.feeds.find? (fun f => f.link == u) <;> rfl

theorem feeds_create_chats (db : Db) (u : String) :
    (feeds_create db u).2.chats = db.chats := by
  unfold feeds_create
  cases db.feeds.find? (fun f => f.link == u) <;> rfl

theorem telegram_create_chat_fst_id (db : Db) (c : NewTelegramChat) :
    (telegram_create_chat db c).1.id = c.id := by
  unfold telegram_create_chat
  cases h : db.chats.find? (fun ch => ch.id == c.id) with
  | none => rfl
  | some ch =>
    have hp := List.find?_some h
    simp only [beq_iff_eq] at hp
    exact hp

theorem telegram_create_chat_find (db : Db) (c : NewTelegramChat) :
    (telegram_create_chat db c).2.chats.find? (fun ch => ch.id == c.id) =
      some (telegram_create_chat db c).1 := by
  unfold telegram_create_chat
  cases h : db.chats.find? (fun ch => ch.id == c.id) with
  | some ch => simpa using h
  | none => simp [List.find?_append, h]

theorem feeds_create_find (db : Db) (u : String) :
    (feeds_create db u).2.feeds.find? (fun f => f.link == u) =
      some (feeds_create db u).1 := by
  unfold feeds_create
  cases h : db.feeds.find? (fun f => f.link == u) with
  | some f => simpa using h
  | none => simp [List.find?_append, h]

theorem check_number_ok_iff (db : Db) (chat_id : Int) :
    check_number_of_subscriptions db chat_id = Except.ok () ↔
      telegram_count_subscriptions_for_chat db chat_id ≤ 2 := by
  unfold check_number_of_subscriptions
  rcases h : telegram_count_subscriptions_for_chat db chat_id with _ | (_ | (_ | n)) <;>
    simp

theorem check_number_error_of_ge (db : Db) (chat_id : Int)
    (h : 3 ≤ telegram_count_subscriptions_for_chat db chat_id) :
    check_number_of_subscriptions db chat_id =
      Except.error SubscriptionError.SubscriptionCountLimit := by
  unfold check_number_of_subscriptions
  rcases hx : telegram_count_subscriptions_for_chat db chat_id with _ | (_ | (_ | n))
  · rw [hx] at h; omega
  · rw [hx] at h; omega
  · rw [hx] at h; omega
  · rfl

theorem check_exists_ok_iff (db : Db) (s : NewTelegramSubscription) :
    check_if_subscription_exists db s = Except.ok () ↔
      telegram_find_subscription db s = none := by
  unfold check_if_subscription_exists
  cases telegram_find_subscription db s <;> simp

theorem count_congr (db db' : Db) (c : Int)
    (h : db'.subscriptions = db.subscriptions) :
    telegram_count_subscriptions_for_chat db' c =
      telegram_count_subscriptions_for_chat db c := by
  unfold telegram_count_subscriptions_for_chat
  rw [h]

/-- Case analysis of one create_subscription call: either it leaves the
storage state untouched (every non-ok outcome rolls back or never
commits), or the two checks passed on the upserted state and the call
committed exactly the state with the one new Subscription row. -/
theorem create_subscription_state (env : FeedEnv) (faults : StorageFaults)
    (now : Int) (db : Db) (chat : NewTelegramChat) (url : Option String) :
    ((∀ s, (create_subscription env faults now db chat url).1 ≠ Outcome.ok s)
      ∧ (create_subscription env faults now db chat url).2.1 = db) ∨
    ∃ u, url = some u
      ∧ check_if_subscription_exists (feeds_create (telegram_create_chat db chat).2 u).2
          { chat_id := (telegram_create_chat db chat).1.id,
            feed_id := (feeds_create (telegram_create_chat db chat).2 u).1.id } = Except.ok ()
      ∧ check_number_of_subscriptions (feeds_create (telegram_create_chat db chat).2 u).2
          (telegram_create_chat db chat).1.id = Except.ok ()
      ∧ create_subscription env faults now db chat url =
          (Outcome.ok { chat_id := (telegram_create_chat db chat).1.id,
                        feed_id := (feeds_create (telegram_create_chat db chat).2 u).1.id,
                        created_at := now, updated_at := now },
           (telegram_create_subscription (feeds_create (telegram_create_chat db chat).2 u).2
             { chat_id := (telegram_create_chat db chat).1.id,
               feed_id := (feeds_create (telegram_create_chat db chat).2 u).1.id } now).2,
           [Event.upsertChat, Event.upsertFeed, Event.findSub, Event.countSubs,
            Event.insertSub]) := by
  unfold create_subscription
  cases url with
  | none => exact Or.inl ⟨fun s h => Outcome.noConfusion h, rfl⟩
  | some u =>
    dsimp only []
    cases hv : validate_rss_url env u with
    | error e => exact Or.inl ⟨fun s h => Outcome.noConfusion h, rfl⟩
    | ok v =>
      dsimp only []
      cases hb : faults.beginFault with
      | some e => exact Or.inl ⟨fun s h => Outcome.noConfusion h, rfl⟩
      | none =>
        dsimp only []
        cases hc : faults.chatFault with
        | some e => exact Or.inl ⟨fun s h => Outcome.noConfusion h, rfl⟩
        | none =>
          dsimp only []
          cases hf : faults.feedFault with
          | some e => exact Or.inl ⟨fun s h => Outcome.noConfusion h, rfl⟩
          | none =>
            dsimp only []
            cases hd : check_if_subscription_exists
                (feeds_create (telegram_create_chat db chat).2 u).2
                { chat_id := (telegram_create_chat db chat).1.id,
                  feed_id := (feeds_create (telegram_create_chat db chat).2 u).1.id } with
            | error e => exact Or.inl ⟨fun s h => Outcome.noConfusion h, rfl⟩
            | ok vd =>
              dsimp only []
              cases hn : check_number_of_subscriptions
                  (feeds_create (telegram_create_chat db chat).2 u).2
                  (telegram_create_chat db chat).1.id with
              | error e => exact Or.inl ⟨fun s h => Outcome.noConfusion h, rfl⟩
              | ok vn =>
                dsimp only []
                cases hi : faults.insertFault with
                | some e => exact Or.inl ⟨fun s h => Outcome.noConfusion h, rfl⟩
                | none =>
                  dsimp only []
                  cases hcm : faults.commitFault with
                  | some e => exact Or.inl ⟨fun s h => Outcome.noConfusion h, rfl⟩
                  | none =>
                    cases vd
                    cases vn
                    exact Or.inr ⟨u, rfl, hd, hn, rfl⟩

theorem validate_rss_url_parse_false (env : FeedEnv) (u : String)
    (hp : env.parses u = false) :
    validate_rss_url env u = Except.error SubscriptionError.InvalidRssUrl := by
  unfold validate_rss_url
  rw [hp]

theorem validate_rss_url_fetch_false (env : FeedEnv) (u : String)
    (hp : env.parses u = true) (hf : env.fetchOk u = false) :
    validate_rss_url env u = Except.error SubscriptionError.UrlIsNotRss := by
  unfold validate_rss_url
  rw [hp, hf]

theorem validate_rss_url_ok (env : FeedEnv) (u : String)
    (hp : env.parses u = true) (hf : env.fetchOk u = true) :
    validate_rss_url env u = Except.ok () := by
  unfold validate_rss_url
  rw [hp, hf]

theorem create_subscription_validate_error_eq (env : FeedEnv)
    (faults : StorageFaults) (now : Int) (db : Db) (chat : NewTelegramChat)
    (u : String) (e : SubscriptionError)
    (hv : validate_rss_url env u = Except.error e) :
    create_subscription env faults now db chat (some u) =
      (Outcome.err e, db, []) := by
  unfold create_subscription
  dsimp only []
  rw [hv]

theorem telegram_create_chat_of_find (db : Db) (c0 : NewTelegramChat)
    (ch : TelegramChat)
    (h : db.chats.find? (fun x => x.id == c0.id) = some ch) :
    telegram_create_chat db c0 = (ch, db) := by
  unfold telegram_create_chat
  rw [h]

theorem feeds_create_of_find (db : Db) (u : String) (f : Feed)
    (h : db.feeds.find? (fun x => x.link == u) = some f) :
    feeds_create db u = (f, db) := by
  unfold feeds_create
  rw [h]

theorem telegram_create_subscription_chats (db : Db)
    (s : NewTelegramSubscription) (now : Int) :
    (telegram_create_subscription db s now).2.chats = db.chats := rfl

theorem telegram_create_subscription_feeds (db : Db)
    (s : NewTelegramSubscription) (now : Int) :
    (telegram_create_subscription db s now).2.feeds = db.feeds := rfl

theorem telegram_create_subscription_subs (db : Db)
    (s : NewTelegramSubscription) (now : Int) :
    (telegram_create_subscription db s now).2.subscriptions =
      db.subscriptions ++ [(telegram_create_subscription db s now).1] := rfl

theorem create_subscription_dup_eq (env : FeedEnv) (now : Int) (db : Db)
    (chat : NewTelegramChat) (u : String)
    (hv : validate_rss_url env u = Except.ok ())
    (hd : check_if_subscription_exists (feeds_create (telegram_create_chat db chat).2 u).2
        { chat_id := (telegram_create_chat db chat).1.id,
          feed_id := (feeds_create (telegram_create_chat db chat).2 u).1.id } =
        Except.error SubscriptionError.SubscriptionAlreadyExists) :
    create_subscription env noFaults now db chat (some u) =
      (Outcome.err SubscriptionError.SubscriptionAlreadyExists, db,
       [Event.upsertChat, Event.upsertFeed, Event.findSub]) := by
  unfold create_subscription
  dsimp only [noFaults]
  rw [hv]
  dsimp only []
  rw [hd]

theorem create_subscription_countlimit_eq (env : FeedEnv) (now : Int) (db : Db)
    (chat : NewTelegramChat) (u : String)
    (hv : validate_rss_url env u = Except.ok ())
    (hd : check_if_subscription_exists (feeds_create (telegram_create_chat db chat).2 u).2
        { chat_id := (telegram_create_chat db chat).1.id,
          feed_id := (feeds_create (telegram_create_chat db chat).2 u).1.id } =
        Except.ok ())
    (hn : check_number_of_subscriptions (feeds_create (telegram_create_chat db chat).2 u).2
        (telegram_create_chat db chat).1.id =
        Except.error SubscriptionError.SubscriptionCountLimit) :
    create_subscription env noFaults now db chat (some u) =
      (Outcome.err SubscriptionError.SubscriptionCountLimit, db,
       [Event.upsertChat, Event.upsertFeed, Event.findSub, Event.countSubs]) := by
  unfold create_subscription
  dsimp only [noFaults]
  rw [hv]
  dsimp only []
  rw [hd]
  dsimp only []
  rw [hn]

theorem create_subscription_success_eq (env : FeedEnv) (now : Int) (db : Db)
    (chat : NewTelegramChat) (u : String)
    (hv : validate_rss_url env u = Except.ok ())
    (hd : check_if_subscription_exists (feeds_create (telegram_create_chat db chat).2 u).2
        { chat_id := (telegram_create_chat db chat).1.id,
          feed_id := (feeds_create (telegram_create_chat db chat).2 u).1.id } =
        Except.ok ())
    (hn : check_number_of_subscriptions (feeds_create (telegram_create_chat db chat).2 u).2
        (telegram_create_chat db chat).1.id = Except.ok ()) :
    create_subscription env noFaults now db chat (some u) =
      (Outcome.ok { chat_id := (telegram_create_chat db chat).1.id,
                    feed_id := (feeds_create (telegram_create_chat db chat).2 u).1.id,
                    created_at := now, updated_at := now },
       (telegram_create_subscription (feeds_create (telegram_create_chat db chat).2 u).2
         { chat_id := (telegram_create_chat db chat).1.id,
           feed_id := (feeds_create (telegram_create_chat db chat).2 u).1.id } now).2,
       [Event.upsertChat, Event.upsertFeed, Event.findSub, Event.countSubs,
        Event.insertSub]) := by
  unfold create_subscription
  dsimp only [noFaults]
  rw [hv]
  dsimp only []
  rw [hd]
  dsimp only []
  rw [hn]
  rfl

/-- C4: for every chat descriptor, and every environment, fault schedule,
instant and storage state, create_subscription with rss_url = none returns
RssUrlNotProvided, performs no storage operation (empty trace), and leaves
the storage state unchanged, so no Chat, Feed or Subscription rows are
produced. -/
theorem create_subscription_none_rss_url_not_provided
    (env : FeedEnv) (faults : StorageFaults) (now : Int) (db : Db)
    (new_chat : NewTelegramChat) :
    create_subscription env faults now db new_chat none =
      (Outcome.err SubscriptionError.RssUrlNotProvided, db, []) := rfl

/-- C5: for every provided URL string, validation classifies it before any
storage mutation: a string that fails URL parsing yields InvalidRssUrl, and
a string that parses as a URL but whose target does not fetch/parse as a
feed document yields UrlIsNotRss; in both cases create_subscription returns
the error with an empty storage trace and the storage state unchanged. -/
theorem validation_classifies_before_storage
    (env : FeedEnv) (faults : StorageFaults) (now : Int) (db : Db)
    (new_chat : NewTelegramChat) (u : String) :
    (env.parses u = false →
      validate_rss_url env u = Except.error SubscriptionError.InvalidRssUrl
      ∧ create_subscription env faults now db new_chat (some u) =
          (Outcome.err SubscriptionError.InvalidRssUrl, db, []))
    ∧ (env.parses u = true → env.fetchOk u = false →
      validate_rss_url env u = Except.error SubscriptionError.UrlIsNotRss
      ∧ create_subscription env faults now db new_chat (some u) =
          (Outcome.err SubscriptionError.UrlIsNotRss, db, [])) := by
  constructor
  · intro hp
    have hv := validate_rss_url_parse_false env u hp
    exact ⟨hv, create_subscription_validate_error_eq env faults now db new_chat u _ hv⟩
  · intro hp hf
    have hv := validate_rss_url_fetch_false env u hp hf
    exact ⟨hv, create_subscription_validate_error_eq env faults now db new_chat u _ hv⟩

/-- Witness for C5: an environment on which no string parses yields
InvalidRssUrl, and one on which every string parses but nothing fetches as
a feed yields UrlIsNotRss, each with the storage state untouched. -/
theorem validation_classifies_before_storage_witness :
    (validate_rss_url envNoParse "x" = Except.error SubscriptionError.InvalidRssUrl
      ∧ create_subscription envNoParse noFaults 0 emptyDb testChat (some "x") =
          (Outcome.err SubscriptionError.InvalidRssUrl, emptyDb, []))
    ∧ (validate_rss_url envNoFetch "https://a:" =
        Except.error SubscriptionError.UrlIsNotRss
      ∧ create_subscription envNoFetch noFaults 0 emptyDb testChat
          (some "https://a:") =
          (Outcome.err SubscriptionError.UrlIsNotRss, emptyDb, [])) :=
  ⟨(validation_classifies_before_storage envNoParse noFaults 0 emptyDb testChat
      "x").1 rfl,
   (validation_classifies_before_storage envNoFetch noFaults 0 emptyDb testChat
      "https://a:").2 rfl rfl⟩

/-- C10: create_subscription with rss_url = some of the empty string
returns InvalidRssUrl: under the modelled Url::parse the empty string has
no scheme and fails to parse, the validator has no special case for
emptiness, and the storage trace is empty with the storage state unchanged;
the error is the syntactic-parse one, not RssUrlNotProvided. -/
theorem create_subscription_empty_string_invalid
    (fetch : String → Bool) (faults : StorageFaults) (now : Int) (db : Db)
    (new_chat : NewTelegramChat) :
    url_parse_ok "" = false
    ∧ validate_rss_url { parses := url_parse_ok, fetchOk := fetch } "" =
        Except.error SubscriptionError.InvalidRssUrl
    ∧ create_subscription { parses := url_parse_ok, fetchOk := fetch } faults now
        db new_chat (some "") =
        (Outcome.err SubscriptionError.InvalidRssUrl, db, []) := by
  have hp : ({ parses := url_parse_ok, fetchOk := fetch } : FeedEnv).parses "" = false := rfl
  have hv := validate_rss_url_parse_false _ "" hp
  exact ⟨rfl, hv,
    create_subscription_validate_error_eq _ faults now db new_chat "" _ hv⟩

/-- C1, evaluated at the failing input: when the storage layer fails the
chat upsert inside the unit of work, create_subscription panics (the
source unwraps the Err result of telegram::create_chat) instead of
returning the SubscriptionError.DbError the claim requires; nothing is
committed, so the storage state is unchanged. -/
theorem create_subscription_chat_fault_panics :
    create_subscription envAllOk
      { beginFault := none, chatFault := some { code := 7 }, feedFault := none,
        insertFault := none, commitFault := none } 0 emptyDb testChat
      (some "https://example.com/feed") =
      (Outcome.panicked, emptyDb, [Event.upsertChat])
    ∧ ∀ e : DieselError,
        Outcome.panicked ≠ Outcome.err (SubscriptionError.DbError e) :=
  ⟨by decide, fun _ h => Outcome.noConfusion h⟩

/-- C6: create_subscription performs its steps in this order, stopping at
the first failure: URL presence, URL validation (parse, then fetch) with no
storage access, then inside the unit of work the Chat upsert, the Feed
upsert keyed by the URL, the duplicate check on (chat.id, feed.id), the
per-chat count check, and finally the insert of the new Subscription row
carrying the current instant as both timestamps, which is returned; every
check failure rolls the state back and the trace stops at that step. -/
theorem create_subscription_step_order (env : FeedEnv) (now : Int) (db : Db)
    (chat : NewTelegramChat) (u : String) :
    (create_subscription env noFaults now db chat none =
      (Outcome.err SubscriptionError.RssUrlNotProvided, db, []))
    ∧ (env.parses u = false →
        create_subscription env noFaults now db chat (some u) =
          (Outcome.err SubscriptionError.InvalidRssUrl, db, []))
    ∧ (env.parses u = true → env.fetchOk u = false →
        create_subscription env noFaults now db chat (some u) =
          (Outcome.err SubscriptionError.UrlIsNotRss, db, []))
    ∧ (validate_rss_url env u = Except.ok () →
        (check_if_subscription_exists (feeds_create (telegram_create_chat db chat).2 u).2
            { chat_id := (telegram_create_chat db chat).1.id,
              feed_id := (feeds_create (telegram_create_chat db chat).2 u).1.id } =
            Except.error SubscriptionError.SubscriptionAlreadyExists →
          create_subscription env noFaults now db chat (some u) =
            (Outcome.err SubscriptionError.SubscriptionAlreadyExists, db,
             [Event.upsertChat, Event.upsertFeed, Event.findSub]))
        ∧ (check_if_subscription_exists (feeds_create (telegram_create_chat db chat).2 u).2
            { chat_id := (telegram_create_chat db chat).1.id,
              feed_id := (feeds_create (telegram_create_chat db chat).2 u).1.id } =
            Except.ok () →
           check_number_of_subscriptions (feeds_create (telegram_create_chat db chat).2 u).2
            (telegram_create_chat db chat).1.id =
            Except.error SubscriptionError.SubscriptionCountLimit →
          create_subscription env noFaults now db chat (some u) =
            (Outcome.err SubscriptionError.SubscriptionCountLimit, db,
             [Event.upsertChat, Event.upsertFeed, Event.findSub, Event.countSubs]))
        ∧ (check_if_subscription_exists (feeds_create (telegram_create_chat db chat).2 u).2
            { chat_id := (telegram_create_chat db chat).1.id,
              feed_id := (feeds_create (telegram_create_chat db chat).2 u).1.id } =
            Except.ok () →
           check_number_of_subscriptions (feeds_create (telegram_create_chat db chat).2 u).2
            (telegram_create_chat db chat).1.id = Except.ok () →
          create_subscription env noFaults now db chat (some u) =
            (Outcome.ok { chat_id := (telegram_create_chat db chat).1.id,
                          feed_id := (feeds_create (telegram_create_chat db chat).2 u).1.id,
                          created_at := now, updated_at := now },
             (telegram_create_subscription (feeds_create (telegram_create_chat db chat).2 u).2
               { chat_id := (telegram_create_chat db chat).1.id,
                 feed_id := (feeds_create (telegram_create_chat db chat).2 u).1.id } now).2,
             [Event.upsertChat, Event.upsertFeed, Event.findSub, Event.countSubs,
              Event.insertSub]))) := by
  refine ⟨rfl, ?_, ?_, ?_⟩
  · intro hp
    exact create_subscription_validate_error_eq env noFaults now db chat u _
      (validate_rss_url_parse_false env u hp)
  · intro hp hf
    exact create_subscription_validate_error_eq env noFaults now db chat u _
      (validate_rss_url_fetch_false env u hp hf)
  · intro hv
    exact ⟨fun hd => create_subscription_dup_eq env now db chat u hv hd,
           fun hd hn => create_subscription_countlimit_eq env now db chat u hv hd hn,
           fun hd hn => create_subscription_success_eq env now db chat u hv hd hn⟩

/-- Witness for C6: on an empty storage state with everything valid, the
call runs all five storage steps in order and returns the new row with the
current instant as both timestamps. -/
theorem create_subscription_step_order_witness :
    create_subscription envAllOk noFaults 5 emptyDb testChat (some "https://a:") =
      (Outcome.ok { chat_id := 42, feed_id := 1, created_at := 5, updated_at := 5 },
       { chats := [{ id := 42, kind := "private", username := some "Username",
                     first_name := some "First", last_name := some "Last" }],
         feeds := [{ id := 1, link := "https://a:" }], nextFeedId := 2,
         subscriptions := [{ chat_id := 42, feed_id := 1, created_at := 5,
                             updated_at := 5 }] },
       [Event.upsertChat, Event.upsertFeed, Event.findSub, Event.countSubs,
        Event.insertSub]) :=
  ((create_subscription_step_order envAllOk 5 emptyDb testChat
      "https://a:").2.2.2 rfl).2.2 rfl rfl

theorem count_insert (db : Db) (s : NewTelegramSubscription) (now : Int)
    (c : Int) :
    telegram_count_subscriptions_for_chat (telegram_create_subscription db s now).2 c =
      telegram_count_subscriptions_for_chat db c +
        (if s.chat_id == c then 1 else 0) := by
  unfold telegram_count_subscriptions_for_chat telegram_create_subscription
  dsimp only []
  rw [List.filter_append, List.length_append]
  congr 1
  cases h : s.chat_id == c <;> simp [List.filter_cons, h]

theorem count_after_call_le (env : FeedEnv) (faults : StorageFaults)
    (now : Int) (db : Db) (chat : NewTelegramChat) (url : Option String)
    (c : Int) :
    telegram_count_subscriptions_for_chat
        (create_subscription env faults now db chat url).2.1 c ≤
      max (telegram_count_subscriptions_for_chat db c) 3 := by
  rcases create_subscription_state env faults now db chat url with
    ⟨_, hst⟩ | ⟨u, hu, hd, hn, heq⟩
  · rw [hst]; exact le_max_left _ _
  · rw [heq]
    dsimp only []
    rw [count_insert]
    have hsub : (feeds_create (telegram_create_chat db chat).2 u).2.subscriptions =
        db.subscriptions := by
      rw [feeds_create_subscriptions, telegram_create_chat_subscriptions]
    rw [count_congr db _ c hsub]
    have h2 := (check_number_ok_iff _ _).1 hn
    rw [count_congr db _ ((telegram_create_chat db chat).1.id) hsub] at h2
    by_cases hc : ((telegram_create_chat db chat).1.id == c) = true
    · have hcc : (telegram_create_chat db chat).1.id = c := by
        simpa using hc
      rw [if_pos hc]
      rw [hcc] at h2
      exact le_trans (by omega) (le_max_right _ 3)
    · rw [if_neg hc]
      simp only [Nat.add_zero]
      exact le_max_left (telegram_count_subscriptions_for_chat db c) 3

theorem run_requests_cap (rs : List Request) :
    ∀ db : Db, (∀ c, telegram_count_subscriptions_for_chat db c ≤ 3) →
      ∀ c, telegram_count_subscriptions_for_chat (run_requests db rs) c ≤ 3 := by
  induction rs with
  | nil => exact fun db h => h
  | cons r rs ih =>
    intro db h c
    exact ih _ (fun d =>
      le_trans (count_after_call_le r.env r.faults r.now db r.chat r.rss_url d)
        (max_le (h d) (le_refl 3))) c

/-- C2: the per-chat subscription cap. A chat already owning three or more
subscriptions makes the count check fail with SubscriptionCountLimit; a
create_subscription call for such a chat can never succeed and always
leaves the storage state unchanged (the unit of work aborts); and any
sequence of create_subscription calls keeps every chat at three
subscriptions at most, starting from any state already within the cap. -/
theorem subscription_count_limit_enforced :
    (∀ (db : Db) (chat_id : Int),
        3 ≤ telegram_count_subscriptions_for_chat db chat_id →
        check_number_of_subscriptions db chat_id =
          Except.error SubscriptionError.SubscriptionCountLimit)
    ∧ (∀ (env : FeedEnv) (faults : StorageFaults) (now : Int) (db : Db)
          (chat : NewTelegramChat) (url : Option String),
        3 ≤ telegram_count_subscriptions_for_chat db chat.id →
        (∀ s, (create_subscription env faults now db chat url).1 ≠ Outcome.ok s)
        ∧ (create_subscription env faults now db chat url).2.1 = db)
    ∧ (∀ db : Db, (∀ c, telegram_count_subscriptions_for_chat db c ≤ 3) →
        ∀ (rs : List Request) (c : Int),
          telegram_count_subscriptions_for_chat (run_requests db rs) c ≤ 3) := by
  refine ⟨check_number_error_of_ge, ?_, ?_⟩
  · intro env faults now db chat url hcap
    rcases create_subscription_state env faults now db chat url with
      ⟨hok, hst⟩ | ⟨u, hu, hd, hn, heq⟩
    · exact ⟨hok, hst⟩
    · exfalso
      have h2 := (check_number_ok_iff _ _).1 hn
      have hsub : (feeds_create (telegram_create_chat db chat).2 u).2.subscriptions =
          db.subscriptions := by
        rw [feeds_create_subscriptions, telegram_create_chat_subscriptions]
      rw [count_congr db _ _ hsub, telegram_create_chat_fst_id] at h2
      omega
  · intro db h rs c
    exact run_requests_cap rs db h c

/-- Witness for C2: chat 42 of threeSubsDb owns three subscriptions, so the
count check rejects it, a fourth create_subscription call fails and leaves
the state unchanged, and running a call sequence from the empty state keeps
every chat within the cap. -/
theorem subscription_count_limit_enforced_witness :
    check_number_of_subscriptions threeSubsDb 42 =
        Except.error SubscriptionError.SubscriptionCountLimit
    ∧ ((∀ s, (create_subscription envAllOk noFaults 9 threeSubsDb testChat
          (some "https://d:")).1 ≠ Outcome.ok s)
       ∧ (create_subscription envAllOk noFaults 9 threeSubsDb testChat
          (some "https://d:")).2.1 = threeSubsDb)
    ∧ (∀ c, telegram_count_subscriptions_for_chat
          (run_requests emptyDb
            [{ env := envAllOk, faults := noFaults, now := 0,
               chat := testChat, rss_url := some "https://a:" }]) c ≤ 3) :=
  ⟨subscription_count_limit_enforced.1 threeSubsDb 42 (by decide),
   subscription_count_limit_enforced.2.1 envAllOk noFaults 9 threeSubsDb
     testChat (some "https://d:") (by decide),
   subscription_count_limit_enforced.2.2 emptyDb (fun _ => Nat.zero_le 3)
     [{ env := envAllOk, faults := noFaults, now := 0,
        chat := testChat, rss_url := some "https://a:" }]⟩

/-- C3: calling create_subscription twice with the same chat descriptor and
the same valid feed URL, from a state in which the pair is not yet
subscribed and the chat is under the cap, succeeds the first time and fails
with SubscriptionAlreadyExists the second time; the second call's unit of
work is aborted so no new rows survive it, and exactly one Subscription row
exists for that (chat, feed) pair afterward. -/
theorem duplicate_subscription_second_call
    (env : FeedEnv) (now now2 : Int) (db : Db) (chat : NewTelegramChat)
    (u : String)
    (hp : env.parses u = true) (hf : env.fetchOk u = true)
    (hd : check_if_subscription_exists (feeds_create (telegram_create_chat db chat).2 u).2
        { chat_id := (telegram_create_chat db chat).1.id,
          feed_id := (feeds_create (telegram_create_chat db chat).2 u).1.id } =
        Except.ok ())
    (hn : check_number_of_subscriptions (feeds_create (telegram_create_chat db chat).2 u).2
        (telegram_create_chat db chat).1.id = Except.ok ()) :
    ∃ s : TelegramSubscription,
      (create_subscription env noFaults now db chat (some u)).1 = Outcome.ok s
      ∧ (create_subscription env noFaults now2
            (create_subscription env noFaults now db chat (some u)).2.1 chat (some u)).1 =
          Outcome.err SubscriptionError.SubscriptionAlreadyExists
      ∧ (create_subscription env noFaults now2
            (create_subscription env noFaults now db chat (some u)).2.1 chat (some u)).2.1 =
          (create_subscription env noFaults now db chat (some u)).2.1
      ∧ (((create_subscription env noFaults now db chat (some u)).2.1).subscriptions.filter
            (fun r => r.chat_id == s.chat_id && r.feed_id == s.feed_id)).length = 1 := by
  have hv := validate_rss_url_ok env u hp hf
  have h1 := create_subscription_success_eq env now db chat u hv hd hn
  have hchats3 : (telegram_create_subscription
      (feeds_create (telegram_create_chat db chat).2 u).2
      { chat_id := (telegram_create_chat db chat).1.id,
        feed_id := (feeds_create (telegram_create_chat db chat).2 u).1.id } now).2.chats =
      (telegram_create_chat db chat).2.chats := by
    rw [telegram_create_subscription_chats, feeds_create_chats]
  have hfc : (telegram_create_subscription
      (feeds_create (telegram_create_chat db chat).2 u).2
      { chat_id := (telegram_create_chat db chat).1.id,
        feed_id := (feeds_create (telegram_create_chat db chat).2 u).1.id } now).2.chats.find?
      (fun x => x.id == chat.id) = some (telegram_create_chat db chat).1 := by
    rw [hchats3]; exact telegram_create_chat_find db chat
  have hchat2 := telegram_create_chat_of_find _ chat _ hfc
  have hfeeds3 : (telegram_create_subscription
      (feeds_create (telegram_create_chat db chat).2 u).2
      { chat_id := (telegram_create_chat db chat).1.id,
        feed_id := (feeds_create (telegram_create_chat db chat).2 u).1.id } now).2.feeds =
      (feeds_create (telegram_create_chat db chat).2 u).2.feeds := by
    rw [telegram_create_subscription_feeds]
  have hff : (telegram_create_subscription
      (feeds_create (telegram_create_chat db chat).2 u).2
      { chat_id := (telegram_create_chat db chat).1.id,
        feed_id := (feeds_create (telegram_create_chat db chat).2 u).1.id } now).2.feeds.find?
      (fun x => x.link == u) = some (feeds_create (telegram_create_chat db chat).2 u).1 := by
    rw [hfeeds3]; exact feeds_create_find (telegram_create_chat db chat).2 u
  have hfeed2 := feeds_create_of_find _ u _ hff
  have hsub2 : (feeds_create (telegram_create_chat db chat).2 u).2.subscriptions =
      db.subscriptions := by
    rw [feeds_create_subscriptions, telegram_create_chat_subscriptions]
  have hnone' : db.subscriptions.find?
      (fun r => r.chat_id == (telegram_create_chat db chat).1.id &&
        r.feed_id == (feeds_create (telegram_create_chat db chat).2 u).1.id) = none := by
    have h := (check_exists_ok_iff _ _).1 hd
    unfold telegram_find_subscription at h
    rw [hsub2] at h
    exact h
  have hsubs3 : (telegram_create_subscription
      (feeds_create (telegram_create_chat db chat).2 u).2
      { chat_id := (telegram_create_chat db chat).1.id,
        feed_id := (feeds_create (telegram_create_chat db chat).2 u).1.id } now).2.subscriptions =
      db.subscriptions ++
        [{ chat_id := (telegram_create_chat db chat).1.id,
           feed_id := (feeds_create (telegram_create_chat db chat).2 u).1.id,
           created_at := now, updated_at := now }] := by
    rw [telegram_create_subscription_subs, hsub2]
    rfl
  have hfind2 : telegram_find_subscription
      (telegram_create_subscription
        (feeds_create (telegram_create_chat db chat).2 u).2
        { chat_id := (telegram_create_chat db chat).1.id,
          feed_id := (feeds_create (telegram_create_chat db chat).2 u).1.id } now).2
      { chat_id := (telegram_create_chat db chat).1.id,
        feed_id := (feeds_create (telegram_create_chat db chat).2 u).1.id } =
      some { chat_id := (telegram_create_chat db chat).1.id,
             feed_id := (feeds_create (telegram_create_chat db chat).2 u).1.id,
             created_at := now, updated_at := now } := by
    unfold telegram_find_subscription
    rw [hsubs3, List.find?_append, hnone']
    simp
  have hd2 : check_if_subscription_exists
      (feeds_create (telegram_create_chat
        (telegram_create_subscription
          (feeds_create (telegram_create_chat db chat).2 u).2
          { chat_id := (telegram_create_chat db chat).1.id,
            feed_id := (feeds_create (telegram_create_chat db chat).2 u).1.id } now).2
        chat).2 u).2
      { chat_id := (telegram_create_chat
          (telegram_create_subscription
            (feeds_create (telegram_create_chat db chat).2 u).2
            { chat_id := (telegram_create_chat db chat).1.id,
              feed_id := (feeds_create (telegram_create_chat db chat).2 u).1.id } now).2
          chat).1.id,
        feed_id := (feeds_create (telegram_create_chat
          (telegram_create_subscription
            (feeds_create (telegram_create_chat db chat).2 u).2
            { chat_id := (telegram_create_chat db chat).1.id,
              feed_id := (feeds_create (telegram_create_chat db chat).2 u).1.id } now).2
          chat).2 u).1.id } =
      Except.error SubscriptionError.SubscriptionAlreadyExists := by
    rw [hchat2]
    dsimp only []
    rw [hfeed2]
    dsimp only []
    unfold check_if_subscription_exists
    rw [hfind2]
  have h2 := create_subscription_dup_eq env now2 _ chat u hv hd2
  refine ⟨{ chat_id := (telegram_create_chat db chat).1.id,
            feed_id := (feeds_create (telegram_create_chat db chat).2 u).1.id,
            created_at := now, updated_at := now }, ?_, ?_, ?_, ?_⟩
  · rw [h1]
  · rw [h1]
    dsimp only []
    rw [h2]
  · rw [h1]
    dsimp only []
    rw [h2]
  · rw [h1]
    dsimp only []
    rw [hsubs3, List.filter_append]
    have hfilnil : db.subscriptions.filter
        (fun r => r.chat_id == (telegram_create_chat db chat).1.id &&
          r.feed_id == (feeds_create (telegram_create_chat db chat).2 u).1.id) = [] :=
      List.filter_eq_nil_iff.2 (fun a ha => List.find?_eq_none.1 hnone' a ha)
    rw [hfilnil]
    simp

/-- Witness for C3: on the empty storage state, the first call for chat 42
and the URL succeeds and the identical second call is rejected as a
duplicate, leaving exactly one row for the pair. -/
theorem duplicate_subscription_second_call_witness :
    ∃ s : TelegramSubscription,
      (create_subscription envAllOk noFaults 1 emptyDb testChat
          (some "https://a:")).1 = Outcome.ok s
      ∧ (create_subscription envAllOk noFaults 2
            (create_subscription envAllOk noFaults 1 emptyDb testChat
              (some "https://a:")).2.1 testChat (some "https://a:")).1 =
          Outcome.err SubscriptionError.SubscriptionAlreadyExists
      ∧ (create_subscription envAllOk noFaults 2
            (create_subscription envAllOk noFaults 1 emptyDb testChat
              (some "https://a:")).2.1 testChat (some "https://a:")).2.1 =
          (create_subscription envAllOk noFaults 1 emptyDb testChat
            (some "https://a:")).2.1
      ∧ (((create_subscription envAllOk noFaults 1 emptyDb testChat
            (some "https://a:")).2.1).subscriptions.filter
            (fun r => r.chat_id == s.chat_id && r.feed_id == s.feed_id)).length = 1 :=
  duplicate_subscription_second_call envAllOk 1 2 emptyDb testChat "https://a:"
    rfl rfl rfl rfl

theorem item_normalize_eq_none_iff (parse : String → Option Int) (it : Item) :
    item_normalize parse it = none ↔ it.pub_date.bind parse = none := by
  unfold item_normalize
  cases it.pub_date with
  | none => simp
  | some s =>
    simp only [Option.some_bind]
    cases hps : parse s with
    | none => simp
    | some t => simp

theorem normalize_items_eq_none_iff (parse : String → Option Int)
    (l : List Item) :
    normalize_items parse l = none ↔ ∃ it ∈ l, it.pub_date.bind parse = none := by
  induction l with
  | nil => simp [normalize_items]
  | cons it rest ih =>
    simp only [normalize_items]
    cases hi : item_normalize parse it with
    | none =>
      simp only [List.mem_cons]
      constructor
      · intro _
        exact ⟨it, Or.inl rfl, (item_normalize_eq_none_iff parse it).1 hi⟩
      · intro _
        trivial
    | some fi =>
      have hgood : ¬ it.pub_date.bind parse = none := by
        intro hb
        rw [(item_normalize_eq_none_iff parse it).2 hb] at hi
        cases hi
      cases hr : normalize_items parse rest with
      | none =>
        simp only [List.mem_cons]
        constructor
        · intro _
          obtain ⟨x, hx, hb⟩ := ih.1 hr
          exact ⟨x, Or.inr hx, hb⟩
        · intro _
          trivial
      | some fis =>
        simp only [List.mem_cons]
        constructor
        · intro hcontra
          cases hcontra
        · rintro ⟨x, hx, hb⟩
          rcases hx with rfl | hx
          · exact absurd hb hgood
          · have hrest := ih.2 ⟨x, hx, hb⟩
            rw [hrest] at hr
            cases hr

/-- C9: normalization aborts on the whole feed exactly when some item has a
missing publication date or a date string the RFC2822 parser rejects; it
neither skips such an item nor reports a per-item error, and the abort is
unreachable precisely when every item carries a present, well-formed
date. -/
theorem fetchedFeed_from_aborts_iff (parse : String → Option Int)
    (channel : Channel) :
    fetchedFeed_from parse channel = none ↔
      ∃ it ∈ channel.items, it.pub_date.bind parse = none := by
  unfold fetchedFeed_from
  cases hn : normalize_items parse channel.items with
  | none =>
    constructor
    · intro _
      exact (normalize_items_eq_none_iff parse channel.items).1 hn
    · intro _
      rfl
  | some items =>
    constructor
    · intro h
      cases h
    · intro hex
      have := (normalize_items_eq_none_iff parse channel.items).2 hex
      rw [this] at hn
      cases hn

/-- C8: normalization copies the feed-level title, link and description of
the raw channel into the FetchedFeed verbatim, with no defaulting or
transformation. -/
theorem fetchedFeed_from_copies_feed_fields (parse : String → Option Int)
    (channel : Channel) (ff : FetchedFeed)
    (h : fetchedFeed_from parse channel = some ff) :
    ff.title = channel.title ∧ ff.link = channel.link
      ∧ ff.description = channel.description := by
  unfold fetchedFeed_from at h
  cases hn : normalize_items parse channel.items with
  | none =>
    rw [hn] at h
    cases h
  | some items =>
    rw [hn] at h
    cases h
    exact ⟨rfl, rfl, rfl⟩

/-- Witness for C8 at the sample channel and parser. -/
theorem fetchedFeed_from_copies_feed_fields_witness :
    ({ title := "Feed title", link := "https://example.com",
       description := "Feed desc",
       items := [{ title := some "Item", description := none,
                   link := some "https://example.com/1", author := none,
                   guid := some "g1", publication_date := 1577836800 }] } :
      FetchedFeed).title = sampleChannel.title
    ∧ ({ title := "Feed title", link := "https://example.com",
         description := "Feed desc",
         items := [{ title := some "Item", description := none,
                     link := some "https://example.com/1", author := none,
                     guid := some "g1", publication_date := 1577836800 }] } :
        FetchedFeed).link = sampleChannel.link
    ∧ ({ title := "Feed title", link := "https://example.com",
         description := "Feed desc",
         items := [{ title := some "Item", description := none,
                     link := some "https://example.com/1", author := none,
                     guid := some "g1", publication_date := 1577836800 }] } :
        FetchedFeed).description = sampleChannel.description :=
  fetchedFeed_from_copies_feed_fields sampleParse sampleChannel _ (by decide)

theorem normalize_items_forall2 (parse : String → Option Int)
    (l : List Item)
    (h : ∀ it ∈ l, (it.pub_date.bind parse).isSome) :
    ∃ fis, normalize_items parse l = some fis
      ∧ List.Forall₂ (fun (it : Item) (fi : FetchedFeedItem) =>
          fi.title = it.title ∧ fi.description = it.description
          ∧ fi.link = it.link ∧ fi.author = it.author
          ∧ fi.guid = it.guid.map Guid.value
          ∧ it.pub_date.bind parse = some fi.publication_date) l fis := by
  induction l with
  | nil => exact ⟨[], rfl, List.Forall₂.nil⟩
  | cons it rest ih =>
    have hit : (it.pub_date.bind parse).isSome :=
      h it (List.mem_cons_self it rest)
    obtain ⟨t, ht⟩ := Option.isSome_iff_exists.1 hit
    obtain ⟨fis, hfis, hrel⟩ := ih (fun x hx => h x (List.mem_cons_of_mem it hx))
    obtain ⟨s, hs⟩ : ∃ s, it.pub_date = some s := by
      cases hpd : it.pub_date with
      | none => rw [hpd] at ht; cases ht
      | some s => exact ⟨s, rfl⟩
    have hparse : parse s = some t := by
      rw [hs] at ht
      exact ht
    have hone : item_normalize parse it =
        some { title := it.title, description := it.description, link := it.link,
               author := it.author, guid := it.guid.map Guid.value,
               publication_date := t } := by
      unfold item_normalize
      rw [hs]
      dsimp only []
      rw [hparse]
    refine ⟨{ title := it.title, description := it.description, link := it.link,
              author := it.author, guid := it.guid.map Guid.value,
              publication_date := t } :: fis, ?_, ?_⟩
    · unfold normalize_items
      rw [hone]
      dsimp only []
      rw [hfis]
    · refine List.Forall₂.cons ⟨rfl, rfl, rfl, rfl, rfl, ?_⟩ hrel
      rw [hs]
      simpa using hparse

/-- C7: for every raw channel all of whose items carry a present,
well-formed publication-date string, normalization yields a FetchedFeed
with exactly as many items as the channel, in source order, each optional
field carried through as present-or-absent exactly as in the source item,
and each publication date equal to the instant the item's RFC2822 string
denotes. -/
theorem normalization_preserves_items (parse : String → Option Int)
    (channel : Channel)
    (h : ∀ it ∈ channel.items, (it.pub_date.bind parse).isSome) :
    ∃ ff, fetchedFeed_from parse channel = some ff
      ∧ ff.items.length = channel.items.length
      ∧ List.Forall₂ (fun (it : Item) (fi : FetchedFeedItem) =>
          fi.title = it.title ∧ fi.description = it.description
          ∧ fi.link = it.link ∧ fi.author = it.author
          ∧ fi.guid = it.guid.map Guid.value
          ∧ it.pub_date.bind parse = some fi.publication_date)
        channel.items ff.items := by
  obtain ⟨fis, hfis, hrel⟩ := normalize_items_forall2 parse channel.items h
  refine ⟨{ title := channel.title, link := channel.link,
            description := channel.description, items := fis }, ?_, ?_, hrel⟩
  · unfold fetchedFeed_from
    rw [hfis]
  · exact (List.Forall₂.length_eq hrel).symm

/-- Witness for C7 at the sample channel and parser: the one item survives
with its fields carried through and its date parsed. -/
theorem normalization_preserves_items_witness :
    ∃ ff, fetchedFeed_from sampleParse sampleChannel = some ff
      ∧ ff.items.length = sampleChannel.items.length
      ∧ List.Forall₂ (fun (it : Item) (fi : FetchedFeedItem) =>
          fi.title = it.title ∧ fi.description = it.description
          ∧ fi.link = it.link ∧ fi.author = it.author
          ∧ fi.guid = it.guid.map Guid.value
          ∧ it.pub_date.bind sampleParse = some fi.publication_date)
        sampleChannel.items ff.items :=
  normalization_preserves_items sampleParse sampleChannel (by decide)

end ElMonitorro
